import Mathlib

/-!
Verification of the `poi_search` repository's search core.

Shallow embedding of:
  * `src/services/nominatim.js` — the category table, request-parameter
    construction for `searchPOI` / `searchByCategory`, the rate limiter's
    dispatch-time behaviour, and the address-building part of `normalizePOI`;
  * `src/composables/useSearch.js` — the search-state coordinator
    (`search`, `searchCategory`, `promoteCategory`, `clearSearch`,
    `selectPOI`, `clearSelection`, `updateMapViewport`).

JavaScript numbers that only flow into URL strings are modelled as `String`
(their formatting is irrelevant to every property proved here); timestamps
are modelled as `Int` milliseconds; the asynchronous API call inside the
coordinator is modelled by passing the outcome of the awaited promise as an
explicit argument.
-/

namespace POISearch

/-- Entry of the `CATEGORIES` object of `nominatim.js`: a display label, an
icon, and exactly one of the four OSM tag dimensions set (modelled as four
`Option String` fields, `none` for a field the JS object does not have). -/
structure CategoryInfo where
  label : String
  icon : String
  amenity : Option String := none
  tourism : Option String := none
  leisure : Option String := none
  shop : Option String := none
  deriving DecidableEq, Repr

/-- The fixed `CATEGORIES` table of `nominatim.js` (lines 186-199), in
declaration order. -/
def catTable : List (String × CategoryInfo) :=
  [ ("restaurant", { label := "Restaurants", amenity := some "restaurant", icon := "🍽️" })
  , ("hotel", { label := "Hotels", tourism := some "hotel", icon := "🏨" })
  , ("cafe", { label := "Cafes", amenity := some "cafe", icon := "☕" })
  , ("park", { label := "Parks", leisure := some "park", icon := "🌳" })
  , ("hospital", { label := "Hospitals", amenity := some "hospital", icon := "🏥" })
  , ("pharmacy", { label := "Pharmacies", amenity := some "pharmacy", icon := "💊" })
  , ("fuel", { label := "Gas Stations", amenity := some "fuel", icon := "⛽" })
  , ("bank", { label := "Banks", amenity := some "bank", icon := "🏦" })
  , ("atm", { label := "ATMs", amenity := some "atm", icon := "💳" })
  , ("supermarket", { label := "Supermarkets", shop := some "supermarket", icon := "🛒" })
  , ("museum", { label := "Museums", tourism := some "museum", icon := "🏛️" })
  , ("parking", { label := "Parking", amenity := some "parking", icon := "🅿️" }) ]

/-- Property access `CATEGORIES[key]`: the entry, or `none` (JS `undefined`)
when the key is not in the table. -/
def lookupCategory (key : String) : Option CategoryInfo :=
  (catTable.find? (fun p => p.1 = key)).map Prod.snd

/-- The keys of the fixed category table in declaration order; this is the
initial value of `categoryOrder` in `useSearch.js` line 20
(`getInitialCategories().map(c => c.key)`). -/
def categoryKeys : List String := catTable.map Prod.fst

/-- JavaScript `Array.prototype.indexOf`: index of the first occurrence of
`key`, `-1` when absent. -/
def jsIndexOf (order : List String) (key : String) : Int :=
  if key ∈ order then (order.indexOf key : Int) else -1

/-- The `promoteCategory` body of `useSearch.js` lines 33-43, as a pure
function on the `categoryOrder` list.  `!categoryKey` for a string argument
means the empty string; `splice(currentIndex, 1)` followed by
`unshift(categoryKey)` is `eraseIdx` followed by cons. -/
def promoteCategory (order : List String) (key : String) : List String :=
  if key = "" then order
  else
    let currentIndex := jsIndexOf order key
    if 0 < currentIndex then key :: order.eraseIdx currentIndex.toNat
    else order

/-- Map bounds `{south, west, north, east}`.  The coordinates only ever flow
into a URL string, so they are carried as strings. -/
structure Viewbox where
  west : String
  south : String
  east : String
  north : String
  deriving DecidableEq, Repr

/-- The template string `west,south,east,north` of `nominatim.js`
lines 255 and 307. -/
def viewboxString (vb : Viewbox) : String :=
  vb.west ++ "," ++ vb.south ++ "," ++ vb.east ++ "," ++ vb.north

/-- `URLSearchParams.set`: replace the value in place when the key is
present, append the pair otherwise (insertion order is preserved, which is
how `toString` serializes). -/
def setParam (ps : List (String × String)) (key v : String) : List (String × String) :=
  if ps.any (fun p => p.1 = key) then
    ps.map (fun p => if p.1 = key then (key, v) else p)
  else ps ++ [(key, v)]

/-- The `if (cat.amenity) ... else if (cat.tourism) ... else if (cat.leisure)
... else if (cat.shop)` cascade shared by `searchPOI` (lines 261-272) and
`searchByCategory` (lines 312-320): add at most one tag parameter. -/
def tagParams (ps : List (String × String)) (cat : CategoryInfo) : List (String × String) :=
  match cat.amenity with
  | some v => setParam ps "amenity" v
  | none =>
    match cat.tourism with
    | some v => setParam ps "tourism" v
    | none =>
      match cat.leisure with
      | some v => setParam ps "leisure" v
      | none =>
        match cat.shop with
        | some v => setParam ps "shop" v
        | none => ps

/-- Request parameters built by `searchPOI` of `nominatim.js` lines 241-274:
the base parameters, then `viewbox` plus `bounded=1` when a viewbox is
given, then the tag filter when `category` is truthy and present in the
table.  `category = ""` models an absent/falsy category option. -/
def searchPOIParams (query : String) (category : String) (limit : Nat)
    (viewbox : Option Viewbox) : List (String × String) :=
  let ps : List (String × String) :=
    [ ("q", query), ("format", "json"), ("addressdetails", "1")
    , ("limit", toString limit), ("extratags", "1") ]
  let ps :=
    match viewbox with
    | some vb => setParam (setParam ps "viewbox" (viewboxString vb)) "bounded" "1"
    | none => ps
  if category ≠ "" then
    match lookupCategory category with
    | some cat => tagParams ps cat
    | none => ps
  else ps

/-- Request construction of `searchByCategory` of `nominatim.js`
lines 288-322: throws `Invalid category` (modelled as `Except.error`) when
the category is falsy or unknown; otherwise uses the category label as the
query term, adds `viewbox` plus `bounded=1` when a viewbox is given, and
always adds the tag filter.  The `center` argument of the JS function is
never read when building the request, so it is omitted here. -/
def searchByCategoryParams (category : String) (viewbox : Option Viewbox)
    (limit : Nat) : Except String (List (String × String)) :=
  if category = "" then Except.error "Invalid category"
  else
    match lookupCategory category with
    | none => Except.error "Invalid category"
    | some cat =>
      let ps : List (String × String) :=
        [ ("q", cat.label), ("format", "json"), ("addressdetails", "1")
        , ("limit", toString limit), ("extratags", "1") ]
      let ps :=
        match viewbox with
        | some vb => setParam (setParam ps "viewbox" (viewboxString vb)) "bounded" "1"
        | none => ps
      Except.ok (tagParams ps cat)

/-- JavaScript `String.prototype.trim`: drop whitespace from both ends
(defined structurally on the character list so that it evaluates by
kernel reduction). -/
def jsTrim (s : String) : String :=
  ⟨(((s.data.dropWhile Char.isWhitespace).reverse.dropWhile
      Char.isWhitespace).reverse)⟩

/-- JavaScript truthiness of an optional string field: `undefined` and the
empty string are falsy. -/
def truthy : Option String → Bool
  | none => false
  | some s => s != ""

/-- JavaScript `x || y` on optional string values: `y` when `x` is falsy. -/
def jsOr (x y : Option String) : Option String :=
  if truthy x then x else y

/-- The `address` sub-object of a raw Nominatim item, with the fields read
by `normalizePOI` (`none` models an absent field). -/
structure RawAddress where
  road : Option String := none
  house_number : Option String := none
  city : Option String := none
  town : Option String := none
  village : Option String := none
  country : Option String := none
  deriving DecidableEq, Repr

/-- The address-building part of `normalizePOI` of `nominatim.js`
lines 350-359 and 381: push the road; overwrite slot 0 with
`(parts[0] || "") + " " + house_number` trimmed when a house number is
present (writing slot 0 of an empty JS array creates it, hence the cons on
`parts.tail`); push `city || town || village` and the country when truthy;
join with `", "`, falling back to the display name when the join is the
empty string (JS `||`). -/
def normalizeAddress (a : RawAddress) (displayName : String) : String :=
  let parts : List String := if truthy a.road then [a.road.getD ""] else []
  let parts :=
    if truthy a.house_number then
      (jsTrim (parts.headD "" ++ " " ++ a.house_number.getD "")) :: parts.tail
    else parts
  let cityVal := jsOr a.city (jsOr a.town a.village)
  let parts := if truthy cityVal then parts ++ [cityVal.getD ""] else parts
  let parts := if truthy a.country then parts ++ [a.country.getD ""] else parts
  let joined := String.intercalate ", " parts
  if joined = "" then displayName else joined

/-- Dispatch timestamps produced by `rateLimitedFetch` of `nominatim.js`
lines 204-230 for `n` calls all issued back-to-back (zero delay apart) at
virtual time `t0`, with the module variable `lastRequestTime = last` at
issue time, under the JavaScript event-loop semantics:

Each call runs synchronously up to its first `await`.  A call that finds
`t0 - lastRequestTime ≥ 1000` writes `lastRequestTime := t0` and dispatches
`fetch` at `t0` immediately, so the next issued call reads the updated
timestamp.  A call that finds the interval too small computes its
`setTimeout` delay `1000 - (t0 - lastRequestTime)` from the CURRENT value
and suspends WITHOUT writing `lastRequestTime`; it only writes (and
dispatches) when its timer fires, at `lastRequestTime + 1000` — after every
later back-to-back call has already read the old value and computed the
same deadline.  Timer-phase writes are never re-read by the waiting calls,
whose delays were fixed at issue time, so the dispatch time of every
waiting call is `last + 1000` for the value of `last` it read at issue. -/
def rlDispatchTimes (last t0 : Int) : Nat → List Int
  | 0 => []
  | n + 1 =>
    if 1000 ≤ t0 - last then t0 :: rlDispatchTimes t0 t0 n
    else (last + 1000) :: rlDispatchTimes last t0 n

/-- Outcome of the awaited API-client promise inside a coordinator action:
resolution with a list of normalized records, or rejection. -/
inductive ApiOutcome (α : Type) where
  | success : List α → ApiOutcome α
  | failure : ApiOutcome α

/-- Map center `{lat, lng}` as carried by `mapCenter`. -/
structure Center where
  lat : String
  lng : String
  deriving DecidableEq, Repr

/-- The state owned by the `useSearch` composable (lines 8-20), with result
items of type `α`. -/
structure SearchState (α : Type) where
  results : List α
  isLoading : Bool
  error : Option String
  searchQuery : String
  selectedCategory : String
  selectedPOI : Option α
  mapBounds : Option Viewbox
  mapCenter : Option Center
  categoryOrder : List String

/-- Initial state of the composable: empty results, not loading, no error,
empty query/category, nothing selected, no viewport, categories in table
order. -/
def initialState : SearchState Nat :=
  { results := []
    isLoading := false
    error := none
    searchQuery := ""
    selectedCategory := ""
    selectedPOI := none
    mapBounds := none
    mapCenter := none
    categoryOrder := categoryKeys }

/-- The `search` action of `useSearch.js` lines 56-90, with the awaited
`searchPOI` outcome passed explicitly.  Returns the state after the action
settles, paired with `true` iff the API client was invoked.  The blank-query
guard returns before touching any other field; otherwise the state is reset,
the category promoted when truthy, and the outcome folded in — `results`
first, then the empty-result error, with `isLoading` cleared in `finally`. -/
def search (s : SearchState α) (query category : String)
    (o : ApiOutcome α) : SearchState α × Bool :=
  if jsTrim query = "" then
    ({ s with error := some "Please enter a search term" }, false)
  else
    let s1 := { s with
      searchQuery := query
      selectedCategory := category
      isLoading := true
      error := none
      results := []
      selectedPOI := none }
    let s2 :=
      if category ≠ "" then
        { s1 with categoryOrder := promoteCategory s1.categoryOrder category }
      else s1
    match o with
    | ApiOutcome.success data =>
      let s3 := { s2 with results := data }
      let s4 :=
        if data.length = 0 then
          { s3 with error := some "No results found. Try a different search term." }
        else s3
      ({ s4 with isLoading := false }, true)
    | ApiOutcome.failure =>
      ({ s2 with
          error := some "Search failed. Please try again."
          isLoading := false }, true)

/-- The `searchCategory` action of `useSearch.js` lines 95-129, with the
awaited `searchByCategory` outcome passed explicitly. -/
def searchCategory (s : SearchState α) (category : String)
    (o : ApiOutcome α) : SearchState α × Bool :=
  if category = "" ∨ lookupCategory category = none then
    ({ s with error := some "Please select a category" }, false)
  else
    let s1 := { s with
      selectedCategory := category
      searchQuery := ""
      isLoading := true
      error := none
      results := []
      selectedPOI := none }
    let s2 := { s1 with categoryOrder := promoteCategory s1.categoryOrder category }
    match o with
    | ApiOutcome.success data =>
      let s3 := { s2 with results := data }
      let catLabel := (((lookupCategory category).map CategoryInfo.label).getD "").toLower
      let s4 :=
        if data.length = 0 then
          { s3 with
            error := some ("No " ++ catLabel ++
              " found in this area. Try panning the map.") }
        else s3
      ({ s4 with isLoading := false }, true)
    | ApiOutcome.failure =>
      ({ s2 with
          error := some "Search failed. Please try again."
          isLoading := false }, true)

/-- `selectPOI` of `useSearch.js` lines 134-136. -/
def selectPOI (s : SearchState α) (poi : α) : SearchState α :=
  { s with selectedPOI := some poi }

/-- `clearSelection` of `useSearch.js` lines 141-143. -/
def clearSelection (s : SearchState α) : SearchState α :=
  { s with selectedPOI := none }

/-- `clearSearch` of `useSearch.js` lines 148-154: resets results, error,
query, category and selection; touches nothing else. -/
def clearSearch (s : SearchState α) : SearchState α :=
  { s with
    results := []
    error := none
    searchQuery := ""
    selectedCategory := ""
    selectedPOI := none }

/-- `updateMapViewport` of `useSearch.js` lines 48-51. -/
def updateMapViewport (s : SearchState α) (bounds : Option Viewbox)
    (center : Option Center) : SearchState α :=
  { s with mapBounds := bounds, mapCenter := center }

end POISearch

namespace POISearch

/-! Helper lemmas about `promoteCategory`. -/

/-- Promoting a key that occurs in the order moves it to the front and
erases its old occurrence. -/
theorem promoteCategory_of_mem {l : List String} {k : String}
    (hne : k ≠ "") (hk : k ∈ l) :
    promoteCategory l k = k :: l.erase k := by
  unfold promoteCategory jsIndexOf
  rw [if_neg hne, if_pos hk]
  rcases Nat.eq_zero_or_pos (l.indexOf k) with h0 | hpos
  · rw [h0]
    simp only [Int.natCast_zero, lt_self_iff_false, if_false]
    cases l with
    | nil => cases hk
    | cons a t =>
      have hak : a = k := by
        by_contra hak
        rw [List.indexOf_cons_ne _ hak] at h0
        exact Nat.succ_ne_zero _ h0
      subst hak
      rw [List.erase_cons_head]
  · rw [if_pos (by exact_mod_cast hpos)]
    have ht : ((l.indexOf k : Int)).toNat = l.indexOf k := Int.toNat_natCast _
    rw [ht, List.eraseIdx_indexOf_eq_erase]

/-- Promoting a key absent from the order is a no-op (`indexOf` yields
`-1`, which is not `> 0`). -/
theorem promoteCategory_not_mem {l : List String} {k : String}
    (hk : k ∉ l) : promoteCategory l k = l := by
  by_cases hne : k = "" <;> simp [promoteCategory, jsIndexOf, hne, hk]

/-- Promoting the key already at the front is a no-op. -/
theorem promoteCategory_head_eq {l : List String} {k : String}
    (h : l.head? = some k) : promoteCategory l k = l := by
  cases l with
  | nil => cases h
  | cons a t =>
    have hak : a = k := by injection h
    subst hak
    by_cases hne : a = ""
    · simp [promoteCategory, hne]
    · simp [promoteCategory, jsIndexOf, hne]

/-- Promotion always permutes the order: nothing is added, removed or
duplicated, whatever the key. -/
theorem promoteCategory_perm (l : List String) (k : String) :
    (promoteCategory l k).Perm l := by
  by_cases hne : k = ""
  · simp [promoteCategory, hne]
  by_cases hk : k ∈ l
  · rw [promoteCategory_of_mem hne hk]
    exact (List.perm_cons_erase hk).symm
  · rw [promoteCategory_not_mem hk]

/-- Erasing the first occurrence of `k` does not change the sublist of
elements different from `k`. -/
theorem filter_bne_erase (l : List String) (k : String) :
    (l.erase k).filter (fun x => x != k) = l.filter (fun x => x != k) := by
  induction l with
  | nil => rfl
  | cons a t ih =>
    by_cases hak : a = k
    · subst hak
      rw [List.erase_cons_head]
      simp [List.filter_cons]
    · rw [List.erase_cons_tail (by simpa using hak)]
      simp only [List.filter_cons]
      rw [ih]

end POISearch

namespace POISearch

/-- C1: the claim says `searchPOI` with a viewbox never sets the strict
bounding flag `bounded=1`; but `nominatim.js` line 257 sets
`params.set('bounded', '1')` on the `searchPOI` path whenever a viewbox is
given, exactly as on the `searchByCategory` path.  This theorem evaluates
the request-parameter construction at the failing input (the viewbox of the
repository's own unit test, which expects `bounded=0`): the produced
parameter list contains the pair `("bounded", "1")`. -/
theorem searchPOI_sets_strict_bounded :
    searchPOIParams "restaurant" "" 20
      (some { west := "13.3", south := "52.4", east := "13.5", north := "52.6" }) =
    [("q", "restaurant"), ("format", "json"), ("addressdetails", "1"),
     ("limit", "20"), ("extratags", "1"),
     ("viewbox", "13.3,52.4,13.5,52.6"), ("bounded", "1")] := by decide

/-- C2: the claim says any two rate-limited calls issued with zero delay
between them dispatch at least 1000ms apart, even when overlapping.  The
`rateLimitedFetch` of `nominatim.js` lines 204-230 reads the shared
`lastRequestTime`, computes its `setTimeout` delay, and only writes
`lastRequestTime` after the wait — an unguarded read-modify-write.  Two
overlapping calls issued at t=2000 with `lastRequestTime = 1500` both read
1500, both sleep 500ms, and both dispatch at t=2500, i.e. 0ms apart; with a
fresh module (`lastRequestTime = 0`) and three back-to-back calls at
t=2000, the second and third both dispatch at t=3000.  This theorem
evaluates the dispatch-time model at both failing inputs. -/
theorem rateLimiter_concurrent_collision :
    rlDispatchTimes 1500 2000 2 = [2500, 2500] ∧
    rlDispatchTimes 0 2000 3 = [2000, 3000, 3000] := by decide

/-- C3: for every `categoryOrder` that is a permutation of the fixed
category set and every key `K` present in it, `promoteCategory` puts `K` at
index 0, preserves the relative order of all other keys, and permutes the
sequence. -/
theorem promoteCategory_front_preserves_rest (l : List String) (k : String)
    (hperm : l.Perm categoryKeys) (hk : k ∈ l) :
    (promoteCategory l k).head? = some k ∧
    (promoteCategory l k).filter (fun x => x != k) =
      l.filter (fun x => x != k) ∧
    (promoteCategory l k).Perm l := by
  have hkc : k ∈ categoryKeys := hperm.subset hk
  have hne : k ≠ "" := by
    intro h
    subst h
    revert hkc
    decide
  rw [promoteCategory_of_mem hne hk]
  refine ⟨rfl, ?_, (List.perm_cons_erase hk).symm⟩
  simp [List.filter_cons, filter_bne_erase]

/-- Witness for C3 at a concrete permutation and key. -/
theorem promoteCategory_front_preserves_rest_witness :
    (promoteCategory categoryKeys "cafe").head? = some "cafe" ∧
    (promoteCategory categoryKeys "cafe").filter (fun x => x != "cafe") =
      categoryKeys.filter (fun x => x != "cafe") ∧
    (promoteCategory categoryKeys "cafe").Perm categoryKeys :=
  promoteCategory_front_preserves_rest categoryKeys "cafe"
    (List.Perm.refl _) (by decide)

/-- C4: none of the coordinator operations (`search`, `searchCategory`,
`promoteCategory`, `clearSearch`, `selectPOI`, `clearSelection`,
`updateMapViewport`) ever adds, removes or duplicates a key of
`categoryOrder`: each resulting order is a permutation of (for most
operations: equal to) the previous one, so the order stays a permutation of
the fixed category set it is initialised with. -/
theorem categoryOrder_only_reordered {α : Type} (s : SearchState α)
    (q c cat k : String) (o o2 : ApiOutcome α) (poi : α)
    (b : Option Viewbox) (ctr : Option Center) :
    ((search s q c o).1.categoryOrder).Perm s.categoryOrder ∧
    ((searchCategory s cat o2).1.categoryOrder).Perm s.categoryOrder ∧
    (promoteCategory s.categoryOrder k).Perm s.categoryOrder ∧
    (clearSearch s).categoryOrder = s.categoryOrder ∧
    (selectPOI s poi).categoryOrder = s.categoryOrder ∧
    (clearSelection s).categoryOrder = s.categoryOrder ∧
    (updateMapViewport s b ctr).categoryOrder = s.categoryOrder ∧
    initialState.categoryOrder = categoryKeys := by
  refine ⟨?_, ?_, promoteCategory_perm s.categoryOrder k, rfl, rfl, rfl, rfl, rfl⟩
  · unfold search
    split
    · exact List.Perm.refl _
    · cases o with
      | success data =>
        split <;> split <;>
          simp [apply_ite SearchState.categoryOrder, promoteCategory_perm]
      | failure =>
        split <;> simp [promoteCategory_perm]
  · unfold searchCategory
    split
    · exact List.Perm.refl _
    · cases o2 with
      | success data =>
        split <;>
          simp [apply_ite SearchState.categoryOrder, promoteCategory_perm]
      | failure =>
        simp [promoteCategory_perm]

/-- C5: for a query that is empty or whitespace-only, `search` does not
invoke the API client, sets the error to exactly
`"Please enter a search term"`, and leaves `isLoading` untouched (so a
non-loading state stays non-loading: no Loading transition happens). -/
theorem search_blank_query_guard {α : Type} (s : SearchState α)
    (q c : String) (o : ApiOutcome α) (h : jsTrim q = "") :
    (search s q c o).2 = false ∧
    (search s q c o).1.error = some "Please enter a search term" ∧
    (search s q c o).1.isLoading = s.isLoading := by
  simp [search, h]

/-- Witness for C5 at a whitespace-only query. -/
theorem search_blank_query_guard_witness :
    (search initialState "   " "" (ApiOutcome.success [])).2 = false ∧
    (search initialState "   " "" (ApiOutcome.success [])).1.error =
      some "Please enter a search term" ∧
    (search initialState "   " "" (ApiOutcome.success [])).1.isLoading =
      initialState.isLoading :=
  search_blank_query_guard initialState "   " "" (ApiOutcome.success [])
    (by decide)

/-- C6: for a non-blank query, `search` resolving with an empty array sets
the error to exactly `"No results found. Try a different search term."` and
leaves `results` empty (equal to the empty payload); resolving with `N > 0`
items sets `results` to exactly those items in order and `error` to null. -/
theorem search_success_outcome {α : Type} (s : SearchState α)
    (q c : String) (data : List α) (h : jsTrim q ≠ "") :
    (search s q c (ApiOutcome.success data)).1.results = data ∧
    (search s q c (ApiOutcome.success data)).1.error =
      (if data.length = 0
       then some "No results found. Try a different search term."
       else none) := by
  unfold search
  rw [if_neg h]
  by_cases hc : c ≠ "" <;> by_cases hd : data.length = 0 <;> simp [hc, hd]

/-- Witness for C6 at an empty and at a non-empty payload. -/
theorem search_success_outcome_witness :
    ((search initialState "pizza" "" (ApiOutcome.success [])).1.results =
        ([] : List Nat) ∧
      (search initialState "pizza" "" (ApiOutcome.success [])).1.error =
        (if ([] : List Nat).length = 0
         then some "No results found. Try a different search term."
         else none)) ∧
    ((search initialState "pizza" "" (ApiOutcome.success [3, 7])).1.results =
        [3, 7] ∧
      (search initialState "pizza" "" (ApiOutcome.success [3, 7])).1.error =
        (if [3, 7].length = 0
         then some "No results found. Try a different search term."
         else none)) :=
  ⟨search_success_outcome initialState "pizza" "" [] (by decide),
   search_success_outcome initialState "pizza" "" [3, 7] (by decide)⟩

/-- C7: `clearSearch` after any prior state resets `results` to `[]`,
`error` to null, the selection to null and query/category to empty, while
leaving `categoryOrder` and the viewport (`mapBounds`, `mapCenter`)
unchanged. -/
theorem clearSearch_resets_not_viewport {α : Type} (s : SearchState α) :
    (clearSearch s).results = [] ∧
    (clearSearch s).error = none ∧
    (clearSearch s).selectedPOI = none ∧
    (clearSearch s).searchQuery = "" ∧
    (clearSearch s).selectedCategory = "" ∧
    (clearSearch s).categoryOrder = s.categoryOrder ∧
    (clearSearch s).mapBounds = s.mapBounds ∧
    (clearSearch s).mapCenter = s.mapCenter :=
  ⟨rfl, rfl, rfl, rfl, rfl, rfl, rfl, rfl⟩

/-- C8: promoting the key already at index 0 is a no-op, promoting a key
absent from the order is a no-op, and promotion is idempotent. -/
theorem promoteCategory_noop_idempotent (l : List String) (k : String) :
    (l.head? = some k → promoteCategory l k = l) ∧
    (k ∉ l → promoteCategory l k = l) ∧
    promoteCategory (promoteCategory l k) k = promoteCategory l k := by
  refine ⟨promoteCategory_head_eq, promoteCategory_not_mem, ?_⟩
  by_cases hne : k = ""
  · subst hne
    simp [promoteCategory]
  by_cases hk : k ∈ l
  · rw [promoteCategory_of_mem hne hk]
    exact promoteCategory_head_eq rfl
  · rw [promoteCategory_not_mem hk, promoteCategory_not_mem hk]

/-- Witness for C8: promoting the front key and an absent key on the
initial order are no-ops. -/
theorem promoteCategory_noop_idempotent_witness :
    promoteCategory categoryKeys "restaurant" = categoryKeys ∧
    promoteCategory categoryKeys "zoo" = categoryKeys :=
  ⟨(promoteCategory_noop_idempotent categoryKeys "restaurant").1 (by decide),
   (promoteCategory_noop_idempotent categoryKeys "zoo").2.1 (by decide)⟩

/-- C9: normalizing a raw item whose address has road `"Main St"`, house
number `"1"`, city `"Berlin"` and country `"Germany"` yields the address
string `"Main St 1, Berlin, Germany"`; and when no address part is truthy
the address falls back to the full display string. -/
theorem normalizeAddress_spec :
    normalizeAddress
      { road := some "Main St", house_number := some "1",
        city := some "Berlin", country := some "Germany" }
      "Main St 1, 10115, Berlin, Germany" = "Main St 1, Berlin, Germany" ∧
    ∀ (a : RawAddress) (d : String),
      truthy a.road = false → truthy a.house_number = false →
      truthy (jsOr a.city (jsOr a.town a.village)) = false →
      truthy a.country = false →
      normalizeAddress a d = d := by
  refine ⟨by decide, ?_⟩
  intro a d h1 h2 h3 h4
  simp [normalizeAddress, h1, h2, h3, h4, String.intercalate]

/-- Witness for C9's fallback clause at an address with no parts. -/
theorem normalizeAddress_spec_witness :
    normalizeAddress {} "Berlin, Germany" = "Berlin, Germany" :=
  normalizeAddress_spec.2 {} "Berlin, Germany" rfl rfl rfl rfl

/-- C10: for a category string not present in the fixed table, `searchPOI`
does not fail — it omits all four tag-filter parameters and still issues
the request (the query parameter is present) — while `searchByCategory`
rejects the unknown (or empty, which is also absent from the table)
category with the `Invalid category` error. -/
theorem unknown_category_tolerated_in_text_search (q : String) (lim : Nat)
    (vb : Option Viewbox) (c : String) (h : lookupCategory c = none) :
    (∀ v, ("amenity", v) ∉ searchPOIParams q c lim vb ∧
          ("tourism", v) ∉ searchPOIParams q c lim vb ∧
          ("leisure", v) ∉ searchPOIParams q c lim vb ∧
          ("shop", v) ∉ searchPOIParams q c lim vb) ∧
    ("q", q) ∈ searchPOIParams q c lim vb ∧
    searchByCategoryParams c vb lim = Except.error "Invalid category" := by
  have hps : searchPOIParams q c lim vb =
      (match vb with
       | some vbx =>
         [("q", q), ("format", "json"), ("addressdetails", "1"),
          ("limit", toString lim), ("extratags", "1"),
          ("viewbox", viewboxString vbx), ("bounded", "1")]
       | none =>
         [("q", q), ("format", "json"), ("addressdetails", "1"),
          ("limit", toString lim), ("extratags", "1")]) := by
    cases vb <;> simp [searchPOIParams, setParam, h]
  refine ⟨?_, ?_, ?_⟩
  · intro v
    rw [hps]
    cases vb <;> simp
  · rw [hps]
    cases vb <;> simp
  · by_cases hc : c = ""
    · simp [searchByCategoryParams, hc]
    · simp [searchByCategoryParams, hc, h]

/-- Witness for C10 at the unknown category `"zoo"`. -/
theorem unknown_category_tolerated_in_text_search_witness :
    (∀ v, ("amenity", v) ∉ searchPOIParams "coffee" "zoo" 20 none ∧
          ("tourism", v) ∉ searchPOIParams "coffee" "zoo" 20 none ∧
          ("leisure", v) ∉ searchPOIParams "coffee" "zoo" 20 none ∧
          ("shop", v) ∉ searchPOIParams "coffee" "zoo" 20 none) ∧
    ("q", "coffee") ∈ searchPOIParams "coffee" "zoo" 20 none ∧
    searchByCategoryParams "zoo" none 20 = Except.error "Invalid category" :=
  unknown_category_tolerated_in_text_search "coffee" 20 none "zoo" (by decide)

end POISearch
